import Mathlib

/-!
Shallow embedding of the itch launch-orchestration pipeline
(`tasks/launch.ts`: `doStart`, `caveProblem`, `launchTypeForAction`,
`appExt`, and the UE4-prerequisite / playtime-ticker blocks inside
`doStart`).

Paths and other text the source matches with JavaScript regular
expressions are modelled as `List Char`; identifier-like strings that the
source only compares for equality (action names, the platform tag) stay
`String`.  JavaScript regular expressions are embedded by their match
semantics: an unescaped `.` matches any character except a line
terminator, `/i` compares the pattern's literal letters case-insensitively
(the patterns at hand are all lowercase letters and punctuation), and an
unanchored pattern may match at any position.

External collaborators (the store, the modal chooser, the subkey client,
the process spawner, the file sniffer, the launchers, the clock) are
oracles packed into a `World` value; `doStart` consumes the oracle answers
in the source's order.  The concurrent playtime ticker is sequentialized:
the ticks that fire during supervision are applied to the market state
before the launcher's outcome is consumed, which matches the source's
observable store behaviour for any number of ticks.
-/

namespace Itch

/-- Launch types of the launcher registry in `doStart` (`native`, `html`,
`shell`, `external`). -/
inductive LaunchType
  | native
  | html
  | shell
  | external
deriving DecidableEq, Repr

/-- Result of `fnout.path` on the resolved action path: the two executable
flags `launchTypeForAction` consults. -/
structure SniffResult where
  linuxExecutable : Bool
  macExecutable : Bool
deriving DecidableEq, Repr

/-- Test of the JavaScript regex metacharacter `.` (no `s` flag): any
character except a line terminator. -/
def jsDot (c : Char) : Bool :=
  c ≠ '\n' && c ≠ '\r' && c ≠ '\u2028' && c ≠ '\u2029'

/-- Case-insensitive pattern consumption: `dropPreCI pat l` returns the
rest of `l` after `pat` when lowering each character of `l` yields `pat`
(patterns below are written lowercase, matching a `/i` flag), else
`none`. -/
def dropPreCI : List Char → List Char → Option (List Char)
  | [], l => some l
  | _ :: _, [] => none
  | a :: as, b :: bs => if a = b.toLower then dropPreCI as bs else none

/-- Test for a suffix of the form «any non-terminator character, then the
letters of `alt`» at the very end of `path`: the building block of the
source's `/.(app|exe|bat|sh)$/i` and `/.html?$/i` tests, one alternative at
a time (`alt` is given in match order, e.g. `"app".data`). -/
def dotAltSuffix (alt : List Char) (path : List Char) : Bool :=
  match dropPreCI alt.reverse path.reverse with
  | some (c :: _) => jsDot c
  | _ => false

/-- Embedding of the source's `/.(app|exe|bat|sh)$/i.test(actionPath)`. -/
def matchesNativeRe (path : List Char) : Bool :=
  dotAltSuffix "app".data path || dotAltSuffix "exe".data path ||
    dotAltSuffix "bat".data path || dotAltSuffix "sh".data path

/-- Embedding of the source's `/.html?$/i.test(actionPath)`. -/
def matchesHtmlRe (path : List Char) : Bool :=
  dotAltSuffix "html".data path || dotAltSuffix "htm".data path

/-- Embedding of the source's `/^https?:/i.test(actionPath)`. -/
def matchesHttpRe (path : List Char) : Bool :=
  (dropPreCI "http:".data path).isSome || (dropPreCI "https:".data path).isSome

/-- Embedding of `launchTypeForAction` (the sniffing of the joined path by
`fnout` is the external oracle `sniffRes`; the source only reads its
`linuxExecutable` / `macExecutable` flags). -/
def launchTypeForAction (actionPath : List Char) (platform : String)
    (sniffRes : SniffResult) : LaunchType :=
  if matchesNativeRe actionPath then .native
  else if matchesHtmlRe actionPath then .html
  else if matchesHttpRe actionPath then .external
  else if (sniffRes.linuxExecutable && platform == "linux") ||
      (sniffRes.macExecutable && platform == "osx") then .native
  else .shell

/-- Embedding of `appExt`: the platform's native executable suffix. -/
def appExt (platform : String) : List Char :=
  if platform == "osx" then ".app".data
  else if platform == "windows" then ".exe".data
  else []

example : launchTypeForAction "game.exe".data "windows" ⟨false, false⟩ = .native := by decide
example : launchTypeForAction "Game.EXE".data "linux" ⟨false, false⟩ = .native := by decide
example : launchTypeForAction "wombat".data "windows" ⟨false, false⟩ = .native := by decide
example : launchTypeForAction "smash".data "windows" ⟨false, false⟩ = .native := by decide
example : launchTypeForAction "index.html".data "windows" ⟨false, false⟩ = .html := by decide
example : launchTypeForAction "index.htm".data "windows" ⟨false, false⟩ = .html := by decide
example : launchTypeForAction "https://example.com".data "windows" ⟨false, false⟩ = .external := by decide
example : launchTypeForAction "run".data "linux" ⟨true, false⟩ = .native := by decide
example : launchTypeForAction "run".data "windows" ⟨true, true⟩ = .shell := by decide
example : launchTypeForAction "run".data "linux" ⟨false, true⟩ = .shell := by decide
example : launchTypeForAction "a\nbat".data "windows" ⟨false, false⟩ = .shell := by decide

/-- Exact-prefix test (case-sensitive), for the `{{EXT}}` placeholder
replacement, which has no `/i` flag. -/
def isPre : List Char → List Char → Bool
  | [], _ => true
  | _ :: _, [] => false
  | a :: as, b :: bs => a = b && isPre as bs

/-- Replacement of the first occurrence of `pat` in a character list, as
JavaScript's `String.replace` with a non-global regex does. -/
def replaceFirst (pat rep : List Char) : List Char → List Char
  | [] => []
  | c :: rest =>
    if isPre pat (c :: rest) then rep ++ (c :: rest).drop pat.length
    else c :: replaceFirst pat rep rest

/-- Literal characters of the manifest path placeholder, `{{EXT}}`
(braces written as character escapes). -/
def extPlaceholder : List Char :=
  ['\x7b', '\x7b', 'E', 'X', 'T', '\x7d', '\x7d']

example : replaceFirst extPlaceholder ".exe".data
    ('G' :: 'a' :: 'm' :: 'e' :: extPlaceholder) = "Game.exe".data := by decide

/-- Embedding of the source's `/UE4PrereqSetup(_x64)?.exe/i` test, tail
part: one non-terminator character, then the letters `exe`, anywhere. -/
def ue4Tail (r : List Char) : Bool :=
  match r with
  | c :: rest => jsDot c && (dropPreCI "exe".data rest).isSome
  | [] => false

/-- Match of the UE4-prerequisite pattern anchored at the head of `t`:
the letters `ue4prereqsetup`, an optional `_x64`, then `ue4Tail`. -/
def ue4At (t : List Char) : Bool :=
  match dropPreCI "ue4prereqsetup".data t with
  | some r =>
    ue4Tail r ||
      (match dropPreCI "_x64".data r with
       | some r2 => ue4Tail r2
       | none => false)
  | none => false

/-- Scan of every start position for the UE4-prerequisite pattern, as an
unanchored regex match does. -/
def ue4Scan : List Char → Bool
  | [] => false
  | c :: rest => ue4At (c :: rest) || ue4Scan rest

/-- Embedding of `/UE4PrereqSetup(_x64)?.exe/i.test(x)` from the
prerequisite block of `doStart`. -/
def matchesUE4Re (path : List Char) : Bool :=
  ue4Scan path

example : matchesUE4Re "UE4PrereqSetup.exe".data = true := by decide
example : matchesUE4Re "ue4prereqsetup_x64.EXE".data = true := by decide
example : matchesUE4Re "sub/UE4PrereqSetup_x64.exe".data = true := by decide
example : matchesUE4Re "UE4PrereqSetup".data = false := by decide
example : matchesUE4Re "setup.exe".data = false := by decide

/-- Install record («cave») fields the pipeline reads or writes.  Optional
fields of the TypeScript record are `Option`; `installedUE4Prereq` is read
with JavaScript truthiness, modelled as `Bool`. -/
structure CaveRecord where
  launchType : Option LaunchType
  executables : Option (List String)
  gamePath : Option String
  secondsRun : Option Nat
  lastTouched : Option Nat
  installedUE4Prereq : Bool
deriving DecidableEq, Repr

/-- Embedding of `caveProblem`: the diagnostic over the cave's current
state.  An empty string is falsy in JavaScript, so an empty `gamePath`
counts as missing. -/
def caveProblem (cave : CaveRecord) : Option (List String) :=
  match cave.launchType with
  | some .native =>
    match cave.executables with
    | none => some ["game.install.no_executables_found"]
    | some exes =>
      if exes.length = 0 then some ["game.install.no_executables_found"] else none
  | some .html =>
    match cave.gamePath with
    | none => some ["game.install.no_html_index_found"]
    | some p => if p = "" then some ["game.install.no_html_index_found"] else none
  | _ => none

/-- Manifest action as parsed from `.itch.toml`: required `name` and
`path`, optional `icon`, `args`, `scope`. -/
structure ManifestAction where
  name : String
  path : List Char
  icon : Option String
  args : Option (List String)
  scope : Option String
deriving DecidableEq, Repr

/-- Parsed manifest: the ordered action list `doStart` reads. -/
structure Manifest where
  actions : List ManifestAction
deriving DecidableEq, Repr

/-- Embedding of `findWhere(manifest.actions, \x7bname: n\x7d)`: the first
action with the given name. -/
def findWhere (as : List ManifestAction) (n : String) : Option ManifestAction :=
  as.find? (fun a => a.name == n)

/-- JavaScript truthiness of an optional string: `none` (undefined) and
the empty string are falsy. -/
def strTruthy : Option String → Bool
  | none => false
  | some s => s != ""

/-- Subkey returned by `client.subkey`: the source injects `key` and
`expiresAt` into the environment. -/
structure Subkey where
  key : String
  expiresAt : String
deriving DecidableEq, Repr

/-- Environment overlay built by `doStart` (the `env` object handed to the
launcher); `none` means the variable was never assigned. -/
structure IEnvironment where
  ITCHIO_API_KEY : Option String
  ITCHIO_API_KEY_EXPIRES_AT : Option String
deriving DecidableEq, Repr

/-- Launcher failures: a `Crash` instance versus any other error, the
distinction `doStart`'s catch block tests with `instanceof`. -/
inductive LaunchErr
  | crash (msg : String)
  | other (msg : String)
deriving DecidableEq, Repr

/-- Errors `doStart` can throw (each constructor is one `throw` site or
one propagated collaborator failure). -/
inductive PipelineErr
  | manifestParseError
  | manifestValidationError
  | actionMissingName (i : Nat)
  | couldNotLaunch (problem : List String)
  | subkeyError
  | launchFailed (e : LaunchErr)
deriving DecidableEq, Repr

/-- Error-free terminations of `doStart`: the «open the install folder»
short-circuit, the two launch-free returns during manifest resolution, and
a completed (or swallowed-crash) launch. -/
inductive Outcome
  | openedFolder
  | cancelled
  | done
deriving DecidableEq, Repr

/-- Answer of the modal chooser: `response` carries the chosen manifest
action name (a `MODAL_RESPONSE` payload); anything else is a dismissal. -/
inductive ModalResponse
  | response (manifestActionName : String)
  | cancelled
deriving DecidableEq, Repr

/-- Record of one chooser invocation: the per-action big buttons (each
carrying its action's name) and the trailing plain buttons, which the
source always sets to the single `cancel` option. -/
structure ModalRequest where
  bigButtons : List String
  buttons : List String
deriving DecidableEq, Repr

/-- Oracle answers of every external collaborator `doStart` consults, in
source order.  `parsedManifest = none` models `toml.parse` throwing;
`validateOk` models the external `validate-manifest` collaborator
(modelled from the spec: a validation failure is fatal); `subkeyResult =
none` models `client.subkey` rejecting; `spawnResult = none` models
`spawn` rejecting, `some c` an exit code; `launcherResult = none` models
the launcher resolving, `some e` rejecting with `e`.  `tickNows` lists the
clock readings of the playtime ticks that fire during supervision. -/
structure World where
  cave : CaveRecord
  manifestActionName : Option String
  action : String
  openNow : Nat
  configuredCave : CaveRecord
  hasManifest : Bool
  parsedManifest : Option Manifest
  validateOk : Bool
  modalResponse : ModalResponse
  platform : String
  sniff : SniffResult
  subkeyResult : Option Subkey
  spawnResult : Option Int
  startedAt : Nat
  tickNows : List Nat
  launcherResult : Option LaunchErr
  crashNow : Nat
  finallyNow : Nat
deriving DecidableEq, Repr

/-- Collaborator-call counts and chooser invocations observed during one
`doStart` run. -/
structure Trace where
  configureCalls : Nat
  chooser : List ModalRequest
  subkeyCalls : Nat
  spawnCalls : Nat
  launcherCalls : Nat
deriving DecidableEq, Repr

deriving instance DecidableEq for Except

/-- Observable result of one `doStart` run: its return or throw, the
collaborator trace, the market's cave record afterwards, and the launch
context fields (`env`, `args`, launch type, resolved action) as handed to
the launcher. -/
structure DoStartOut where
  result : Except PipelineErr Outcome
  trace : Trace
  cave : CaveRecord
  env : IEnvironment
  args : List String
  launchType : LaunchType
  manifestAction : Option ManifestAction
deriving DecidableEq, Repr

/-- Result of the manifest-resolution block of `doStart` (lines 176-235):
a thrown error, a plain `return` before any launch, or a resolved (possibly
absent) manifest action; each constructor carries the chooser invocations
made on the way. -/
inductive ResolveOut
  | err (e : PipelineErr) (chooser : List ModalRequest)
  | cancel (chooser : List ModalRequest)
  | selected (ma : Option ManifestAction) (chooser : List ModalRequest)
deriving DecidableEq, Repr

/-- Embedding of the manifest-resolution block of `doStart`.  Without a
manifest file the source proceeds with heuristics (`selected none`).  With
more than one action and a truthy `opts.manifestActionName`, the source
looks the name up but then tests `!action` — the `actionForGame` result,
not the just-resolved `manifestAction` — so the «invalid selection» return
fires only when `w.action` is falsy, and a failed lookup otherwise falls
through with no action selected.  With more than one action and no
explicit name, the source builds one big button per action (whose label
carries the action's name), a single trailing `cancel` button, and awaits
the modal; a non-`MODAL_RESPONSE` answer is a plain `return`.  Otherwise
the single (or absent, for an empty list) first action is selected.
`validateOk` stands for the external `validate-manifest` collaborator,
modelled from the spec: a validation failure is fatal. -/
def resolveManifestAction (w : World) : ResolveOut :=
  if w.hasManifest then
    match w.parsedManifest with
    | none => .err .manifestParseError []
    | some manifest =>
      if !w.validateOk then .err .manifestValidationError []
      else if 1 < manifest.actions.length then
        if strTruthy w.manifestActionName then
          let ma := findWhere manifest.actions (w.manifestActionName.getD "")
          if w.action = "" then .cancel []
          else .selected ma []
        else
          match manifest.actions.findIdx? (fun a => a.name == "") with
          | some i => .err (.actionMissingName i) []
          | none =>
            let req : ModalRequest :=
              { bigButtons := manifest.actions.map (fun a => a.name)
                buttons := ["cancel"] }
            match w.modalResponse with
            | .response n => .selected (findWhere manifest.actions n) [req]
            | .cancelled => .cancel [req]
      else .selected manifest.actions.head? []
  else .selected none []

/-- Intermediate launch state threaded through the later phases of
`doStart`: everything of `DoStartOut` except the configure count, which
the repair phase alone determines. -/
structure Flow where
  result : Except PipelineErr Outcome
  cave : CaveRecord
  env : IEnvironment
  args : List String
  launchType : LaunchType
  manifestAction : Option ManifestAction
  chooser : List ModalRequest
  subkeyCalls : Nat
  spawnCalls : Nat
  launcherCalls : Nat
deriving DecidableEq, Repr

/-- Flow value before manifest resolution: no collaborator called yet, an
empty environment overlay and argument list, and the given market cave and
launch type. -/
def baseFlow (cave : CaveRecord) (lt : LaunchType) : Flow :=
  { result := .ok .done
    cave := cave
    env := ⟨none, none⟩
    args := []
    launchType := lt
    manifestAction := none
    chooser := []
    subkeyCalls := 0
    spawnCalls := 0
    launcherCalls := 0 }

/-- Embedding of the UE4-prerequisite block of `doStart` (lines 272-299):
given the market's current cave record, the possibly updated record and
the number of spawns.  Gated on the `windows` platform and a falsy
`installedUE4Prereq`; a spawn that exits `0` persists the flag, any other
exit code or a spawn failure is caught and only logged. -/
def runUE4Prereq (w : World) (market : CaveRecord) : CaveRecord × Nat :=
  if w.platform = "windows" then
    if !market.installedUE4Prereq then
      match (market.executables.getD []).find? (fun x => matchesUE4Re x.data) with
      | some _ =>
        match w.spawnResult with
        | some code =>
          if code = 0 then ({ market with installedUE4Prereq := true }, 1)
          else (market, 1)
        | none => (market, 1)
      | none => (market, 0)
    else (market, 0)
  else (market, 0)

/-- Interval quantum of the playtime ticker, in seconds. -/
def UPDATE_PLAYTIME_INTERVAL : Nat := 10

/-- Embedding of one playtime tick (lines 307-312): read the market's
current `secondsRun` (absent counts as 0), add the quantum, write back the
sum and a fresh `lastTouched`. -/
def playtimeTick (market : CaveRecord) (now : Nat) : CaveRecord :=
  let previousSecondsRun := market.secondsRun.getD 0
  let newSecondsRun := UPDATE_PLAYTIME_INTERVAL + previousSecondsRun
  { market with secondsRun := some newSecondsRun, lastTouched := some now }

/-- Outcome of the try/catch around the launcher call (lines 313-324):
success returns; a `Crash` more than two seconds (in wall-clock
milliseconds) after `startedAt` is logged and swallowed; any other
failure, and an early crash, is rethrown. -/
def superviseResult (w : World) : Except PipelineErr Outcome :=
  match w.launcherResult with
  | none => .ok .done
  | some (.crash msg) =>
    if 2000 < w.crashNow - w.startedAt then .ok .done
    else .error (.launchFailed (.crash msg))
  | some (.other msg) => .error (.launchFailed (.other msg))

/-- Embedding of the supervision block of `doStart` (lines 301-329): run
the prerequisite step, save `lastTouched = startedAt`, apply the ticks
that fire while the launcher runs, consume the launcher's outcome
(`superviseResult`); the `finally` block writes a final `lastTouched` on
every one of those paths. -/
def supervisePhase (w : World) (f : Flow) : Flow :=
  let p := runUE4Prereq w f.cave
  let market1 := { p.1 with lastTouched := some w.startedAt }
  let market2 := w.tickNows.foldl playtimeTick market1
  let market3 := { market2 with lastTouched := some w.finallyNow }
  { f with result := superviseResult w, cave := market3, spawnCalls := p.2,
           launcherCalls := 1 }

/-- Embedding of `doStart` from the post-repair diagnostic onwards: throw
on a remaining problem; resolve the manifest action; on a resolved action,
substitute the platform extension into its path once, classify it, request
a subkey when its scope is truthy (injecting key and expiry into the
environment overlay, and propagating a subkey failure before anything
else runs), collect its `args`; then run the prerequisite and supervision
phases.  `launchType` is destructured from the pre-configure cave with
default `native`, as the source does on line 143. -/
def launchPhase (w : World) (cave1 : CaveRecord) (problem2 : Option (List String)) : Flow :=
  let lt0 := w.cave.launchType.getD .native
  match problem2 with
  | some problem => { baseFlow cave1 lt0 with result := .error (.couldNotLaunch problem) }
  | none =>
    match resolveManifestAction w with
    | .err e cc => { baseFlow cave1 lt0 with result := .error e, chooser := cc }
    | .cancel cc => { baseFlow cave1 lt0 with result := .ok .cancelled, chooser := cc }
    | .selected none cc =>
      supervisePhase w { baseFlow cave1 lt0 with chooser := cc }
    | .selected (some ma0) cc =>
      let ma := { ma0 with path := replaceFirst extPlaceholder (appExt w.platform) ma0.path }
      let lt := launchTypeForAction ma.path w.platform w.sniff
      if strTruthy ma.scope then
        match w.subkeyResult with
        | none =>
          { baseFlow cave1 lt with
              result := .error .subkeyError
              chooser := cc
              subkeyCalls := 1 }
        | some sub =>
          supervisePhase w
            { baseFlow cave1 lt with
                chooser := cc
                subkeyCalls := 1
                env := ⟨some sub.key, some sub.expiresAt⟩
                args := ma.args.getD []
                manifestAction := some ma }
      else
        supervisePhase w
          { baseFlow cave1 lt with
              chooser := cc
              args := ma.args.getD []
              manifestAction := some ma }

/-- Embedding of the diagnose-and-repair block of `doStart` (lines
145-164): on a problem, run the `configure` task once and re-fetch the
cave from the market; return the resulting cave, the configure count, and
the re-run diagnostic. -/
def repairPhase (w : World) : CaveRecord × Nat × Option (List String) :=
  match caveProblem w.cave with
  | some _ => (w.configuredCave, 1, caveProblem w.configuredCave)
  | none => (w.cave, 0, caveProblem w.cave)

/-- Embedding of `doStart`: the `actionForGame = "open"` short-circuit
(persist `lastTouched`, open the folder, return), then the repair phase,
then `launchPhase`. -/
def doStart (w : World) : DoStartOut :=
  if w.action = "open" then
    { result := .ok .openedFolder
      trace := ⟨0, [], 0, 0, 0⟩
      cave := { w.cave with lastTouched := some w.openNow }
      env := ⟨none, none⟩
      args := []
      launchType := .native
      manifestAction := none }
  else
    let r := repairPhase w
    let f := launchPhase w r.1 r.2.2
    { result := f.result
      trace := ⟨r.2.1, f.chooser, f.subkeyCalls, f.spawnCalls, f.launcherCalls⟩
      cave := f.cave
      env := f.env
      args := f.args
      launchType := f.launchType
      manifestAction := f.manifestAction }

/-- Launchable native cave used by the concrete witnesses: one discovered
executable, no prerequisite installed yet. -/
def baseCave : CaveRecord :=
  { launchType := some .native
    executables := some ["game.x86"]
    gamePath := none
    secondsRun := none
    lastTouched := none
    installedUE4Prereq := false }

/-- Canonical world for the concrete witnesses: a launchable cave, no
manifest, a launcher that succeeds.  Individual witnesses override single
fields. -/
def baseWorld : World :=
  { cave := baseCave
    manifestActionName := none
    action := "launch"
    openNow := 11
    configuredCave := baseCave
    hasManifest := false
    parsedManifest := none
    validateOk := true
    modalResponse := .cancelled
    platform := "linux"
    sniff := ⟨false, false⟩
    subkeyResult := some ⟨"subkey123", "2030-01-01"⟩
    spawnResult := some 0
    startedAt := 1000
    tickNows := []
    launcherResult := none
    crashNow := 1500
    finallyNow := 9999 }

example : (doStart baseWorld).result = .ok .done := by decide
example : (doStart baseWorld).trace.launcherCalls = 1 := by decide
example : (doStart { baseWorld with action := "open" }).result = .ok .openedFolder := by decide

/-- Per-constructor chooser invocations of a resolution result. -/
def ResolveOut.chooserList : ResolveOut → List ModalRequest
  | .err _ cc => cc
  | .cancel cc => cc
  | .selected _ cc => cc

/-- Manifest action used by the concrete witness worlds. -/
def playAction : ManifestAction :=
  { name := "play", path := "game1.x86".data, icon := none, args := none, scope := none }

/-- Second manifest action of the two-action witness worlds. -/
def editorAction : ManifestAction :=
  { name := "editor", path := "game2.x86".data, icon := none, args := none, scope := none }

/-- Manifest action with a scope and arguments, for the subkey witness. -/
def scopedAction : ManifestAction :=
  { name := "play", path := "game1.x86".data, icon := none,
    args := some ["--fullscreen"], scope := some "wallet" }

/-- World of claim C1's failing input: two declared actions and an
explicit action name matching neither. -/
def mismatchWorld : World :=
  { baseWorld with
      hasManifest := true
      parsedManifest := some ⟨[playAction, editorAction]⟩
      manifestActionName := some "nope" }

/-- World whose launcher crashes 2.5 seconds after the recorded start. -/
def crashWorld : World :=
  { baseWorld with launcherResult := some (.crash "boom"), crashNow := 3500 }

/-- Native cave with no discovered executables: `caveProblem` flags it. -/
def brokenCave : CaveRecord :=
  { baseCave with executables := none }

/-- World whose cave is broken and stays broken after the repair task. -/
def repairFailWorld : World :=
  { baseWorld with cave := brokenCave, configuredCave := brokenCave }

/-- World with a single-action manifest whose action has a scope. -/
def scopeWorld : World :=
  { baseWorld with hasManifest := true, parsedManifest := some ⟨[scopedAction]⟩ }

/-- World with a two-action manifest and no explicit action name; its
modal answer is a dismissal. -/
def chooserWorld : World :=
  { baseWorld with
      hasManifest := true
      parsedManifest := some ⟨[playAction, editorAction]⟩ }

/-- World with a single-action manifest. -/
def singleWorld : World :=
  { baseWorld with hasManifest := true, parsedManifest := some ⟨[playAction]⟩ }

/-- Cave with 120 seconds of recorded play time. -/
def tickCave : CaveRecord :=
  { baseCave with secondsRun := some 120 }

/-- Cave whose discovered executables include a UE4 prerequisite setup. -/
def prereqCave : CaveRecord :=
  { baseCave with executables := some ["UE4PrereqSetup.exe", "game.exe"] }

/-- Windows world around `prereqCave`, spawn succeeding with exit 0. -/
def prereqWorld : World :=
  { baseWorld with platform := "windows", cave := prereqCave, configuredCave := prereqCave }

/-- Consumption of an exact pattern occurrence followed by arbitrary text:
when `pat` consumes all of `s`, it consumes the `s` prefix of `s ++ rest`
and leaves `rest`. -/
theorem dropPreCI_exact_append (pat s rest : List Char)
    (h : dropPreCI pat s = some []) : dropPreCI pat (s ++ rest) = some rest := by
  induction pat generalizing s with
  | nil =>
    simp only [dropPreCI] at h
    cases h
    simp [dropPreCI]
  | cons a as ih =>
    cases s with
    | nil => simp [dropPreCI] at h
    | cons b bs =>
      simp only [dropPreCI] at h ⊢
      by_cases hc : a = b.toLower
      · rw [if_pos hc] at h ⊢
        exact ih bs h
      · rw [if_neg hc] at h
        cases h

/-- Suffix test on a path built as «prefix, one character, alternative»:
when the alternative's letters self-match case-insensitively and the
preceding character is matched by the regex dot, `dotAltSuffix`
succeeds. -/
theorem dotAltSuffix_concat (alt e q : List Char) (c : Char)
    (he : dropPreCI alt.reverse e.reverse = some []) (hc : jsDot c = true) :
    dotAltSuffix alt (q ++ c :: e) = true := by
  unfold dotAltSuffix
  have hrev : (q ++ c :: e).reverse = e.reverse ++ c :: q.reverse := by simp
  rw [hrev, dropPreCI_exact_append _ _ _ he]
  exact hc

/-- Chooser invocations of a full `launchPhase` run equal those of its
resolution step: every later branch threads them unchanged. -/
theorem launchPhase_chooser_eq (w : World) (c1 : CaveRecord) :
    (launchPhase w c1 none).chooser = (resolveManifestAction w).chooserList := by
  unfold launchPhase
  cases hres : resolveManifestAction w with
  | err e cc => simp [baseFlow, ResolveOut.chooserList]
  | cancel cc => simp [baseFlow, ResolveOut.chooserList]
  | selected maOpt cc =>
    cases maOpt with
    | none => simp [supervisePhase, baseFlow, ResolveOut.chooserList]
    | some ma0 =>
      simp only [ResolveOut.chooserList]
      split
      · cases w.subkeyResult with
        | none => simp [baseFlow]
        | some sub => simp [supervisePhase, baseFlow]
      · simp [supervisePhase, baseFlow]

/-- Case split over `launchPhase`: either the launcher is never reached
(count 0), or it is dispatched exactly once and the phase's result is the
supervision outcome. -/
theorem launchPhase_cases (w : World) (c1 : CaveRecord) (pb : Option (List String)) :
    (launchPhase w c1 pb).launcherCalls = 0 ∨
      ((launchPhase w c1 pb).launcherCalls = 1 ∧
        (launchPhase w c1 pb).result = superviseResult w) := by
  unfold launchPhase
  cases pb with
  | some problem => left; simp [baseFlow]
  | none =>
    cases resolveManifestAction w with
    | err e cc => left; simp [baseFlow]
    | cancel cc => left; simp [baseFlow]
    | selected maOpt cc =>
      cases maOpt with
      | none => right; simp [supervisePhase, baseFlow]
      | some ma0 =>
        simp only []
        split
        · cases w.subkeyResult with
          | none => left; simp [baseFlow]
          | some sub => right; simp [supervisePhase, baseFlow]
        · right; simp [supervisePhase, baseFlow]

/-- C4: launch-type classification follows a strict precedence order — a
path matching the native-binary extension pattern is `native` regardless
of the sniffed file contents (and every path ending in a literal
`.app`/`.exe`/`.bat`/`.sh` matches that pattern); otherwise an HTML
extension yields `html`; otherwise an `http`/`https` scheme prefix yields
`external`; otherwise the binary-signature sniff yields `native` exactly
when the sniffed format matches the platform (ELF on `linux`, Mach-O on
`osx`); otherwise `shell` — in particular, on a platform that is neither
`linux` nor `osx`, every path failing the pattern checks yields
`shell`. -/
theorem classify_precedence (p : List Char) (plat : String) (sn : SniffResult) :
    ((matchesNativeRe p = true →
        ∀ sn2 : SniffResult, launchTypeForAction p plat sn2 = .native) ∧
      (∀ q ext, ext ∈ [".app".data, ".exe".data, ".bat".data, ".sh".data] →
        matchesNativeRe (q ++ ext) = true)) ∧
    (matchesNativeRe p = false → matchesHtmlRe p = true →
      launchTypeForAction p plat sn = .html) ∧
    (matchesNativeRe p = false → matchesHtmlRe p = false → matchesHttpRe p = true →
      launchTypeForAction p plat sn = .external) ∧
    (matchesNativeRe p = false → matchesHtmlRe p = false → matchesHttpRe p = false →
      (launchTypeForAction p plat sn = .native ↔
        (sn.linuxExecutable = true ∧ plat = "linux") ∨
          (sn.macExecutable = true ∧ plat = "osx"))) ∧
    (matchesNativeRe p = false → matchesHtmlRe p = false → matchesHttpRe p = false →
      plat ≠ "linux" → plat ≠ "osx" → launchTypeForAction p plat sn = .shell) := by
  refine ⟨⟨?_, ?_⟩, ?_, ?_, ?_, ?_⟩
  · intro h sn2
    simp [launchTypeForAction, h]
  · intro q ext hext
    simp only [List.mem_cons, List.not_mem_nil, or_false] at hext
    unfold matchesNativeRe
    rcases hext with rfl | rfl | rfl | rfl
    · rw [dotAltSuffix_concat "app".data ['a', 'p', 'p'] q '.' (by decide) (by decide)]
      simp
    · rw [dotAltSuffix_concat "exe".data ['e', 'x', 'e'] q '.' (by decide) (by decide)]
      simp
    · rw [dotAltSuffix_concat "bat".data ['b', 'a', 't'] q '.' (by decide) (by decide)]
      simp
    · rw [dotAltSuffix_concat "sh".data ['s', 'h'] q '.' (by decide) (by decide)]
      simp
  · intro h1 h2
    simp [launchTypeForAction, h1, h2]
  · intro h1 h2 h3
    simp [launchTypeForAction, h1, h2, h3]
  · intro h1 h2 h3
    simp only [launchTypeForAction, h1, h2, h3, Bool.false_eq_true, if_false]
    constructor
    · intro hl
      by_cases hc : ((sn.linuxExecutable && (plat == "linux")) ||
          (sn.macExecutable && (plat == "osx"))) = true
      · simpa [Bool.or_eq_true, Bool.and_eq_true, beq_iff_eq] using hc
      · rw [if_neg hc] at hl
        cases hl
    · intro hc
      have hb : ((sn.linuxExecutable && (plat == "linux")) ||
          (sn.macExecutable && (plat == "osx"))) = true := by
        simpa [Bool.or_eq_true, Bool.and_eq_true, beq_iff_eq] using hc
      rw [if_pos hb]
  · intro h1 h2 h3 h4 h5
    simp [launchTypeForAction, h1, h2, h3, h4, h5]

/-- C4 witness: concrete classifications through the precedence theorem —
an HTML extension on a sniff-positive file is still `html`, and a dotted
native extension matches the native pattern. -/
theorem classify_precedence_witness :
    launchTypeForAction "index.html".data "windows" ⟨true, true⟩ = .html ∧
    matchesNativeRe ("Game".data ++ ".exe".data) = true :=
  ⟨(classify_precedence "index.html".data "windows" ⟨true, true⟩).2.1
      (by decide) (by decide),
    (classify_precedence [] "windows" ⟨true, true⟩).1.2 "Game".data ".exe".data
      (by decide)⟩

/-- C7: a manifest declaring exactly one action resolves to that action
unconditionally: the chooser is never invoked (no chooser invocation is
recorded) and no explicit action name is required — the statement holds
for every value of `manifestActionName`, which this path never
consults. -/
theorem single_action_selected (w : World) (m : Manifest) (a : ManifestAction)
    (hman : w.hasManifest = true) (hpar : w.parsedManifest = some m)
    (hval : w.validateOk = true) (hact : m.actions = [a]) :
    resolveManifestAction w = .selected (some a) [] := by
  simp [resolveManifestAction, hman, hpar, hval, hact]

/-- C7 witness: the single-action world resolves to its one action. -/
theorem single_action_selected_witness :
    resolveManifestAction singleWorld = .selected (some playAction) [] :=
  single_action_selected singleWorld ⟨[playAction]⟩ playAction rfl rfl rfl rfl

/-- C8: each playtime tick reads the persisted `secondsRun` (absent reads
as 0), adds 10, and persists the sum together with the tick's timestamp
as `lastTouched`; from a persisted 120, two ticks persist 140. -/
theorem playtime_tick_spec (m : CaveRecord) (n1 n2 : Nat) :
    (∀ now, (playtimeTick m now).secondsRun = some (m.secondsRun.getD 0 + 10) ∧
      (playtimeTick m now).lastTouched = some now) ∧
    (m.secondsRun = some 120 →
      (playtimeTick (playtimeTick m n1) n2).secondsRun = some 140) := by
  constructor
  · intro now
    simp [playtimeTick, UPDATE_PLAYTIME_INTERVAL, Nat.add_comm]
  · intro h
    simp [playtimeTick, UPDATE_PLAYTIME_INTERVAL, h]

/-- C8 witness: two ticks on the 120-second cave persist 140 seconds. -/
theorem playtime_tick_spec_witness :
    (playtimeTick (playtimeTick tickCave 5) 6).secondsRun = some 140 :=
  (playtime_tick_spec tickCave 5 6).2 rfl

/-- C10 (amended): because the leading dot of the native-extension
pattern is an unescaped regex wildcard, every action path whose final
characters are `app`, `exe`, `bat` or `sh` preceded by any single
character the wildcard matches — any character other than a line
terminator — is classified `native`, with no dot extension and without
the file's contents ever being inspected. -/
theorem unescaped_dot_extension (q : List Char) (c : Char) (ext : List Char)
    (hext : ext ∈ ["app".data, "exe".data, "bat".data, "sh".data])
    (hc : jsDot c = true) (plat : String) (sn : SniffResult) :
    launchTypeForAction (q ++ c :: ext) plat sn = .native := by
  have hnat : matchesNativeRe (q ++ c :: ext) = true := by
    simp only [List.mem_cons, List.not_mem_nil, or_false] at hext
    unfold matchesNativeRe
    rcases hext with rfl | rfl | rfl | rfl
    · rw [dotAltSuffix_concat "app".data "app".data q c (by decide) hc]
      simp
    · rw [dotAltSuffix_concat "exe".data "exe".data q c (by decide) hc]
      simp
    · rw [dotAltSuffix_concat "bat".data "bat".data q c (by decide) hc]
      simp
    · rw [dotAltSuffix_concat "sh".data "sh".data q c (by decide) hc]
      simp
  simp [launchTypeForAction, hnat]

/-- C10 counterexample to the claim as stated: the line terminator is a
single character, yet the path `a\nbat` (final characters `bat` preceded
by a newline) is classified `shell`, not `native`: the regex dot does not
match a line terminator. -/
theorem unescaped_dot_newline_counterexample :
    launchTypeForAction ("a".data ++ '\n' :: "bat".data) "windows" ⟨false, false⟩ = .shell ∧
    ¬ launchTypeForAction ("a".data ++ '\n' :: "bat".data) "windows" ⟨false, false⟩
        = .native := by
  decide

/-- C10 witness: the dotless paths `wombat` and `smash` are classified
`native` by the amended statement. -/
theorem unescaped_dot_extension_witness :
    launchTypeForAction "wombat".data "windows" ⟨false, false⟩ = .native ∧
    launchTypeForAction "smash".data "windows" ⟨false, false⟩ = .native := by
  constructor
  · rw [show ("wombat".data : List Char) = "wo".data ++ 'm' :: "bat".data from rfl]
    exact unescaped_dot_extension "wo".data 'm' "bat".data (by decide) (by decide)
      "windows" ⟨false, false⟩
  · rw [show ("smash".data : List Char) = "sm".data ++ 'a' :: "sh".data from rfl]
    exact unescaped_dot_extension "sm".data 'a' "sh".data (by decide) (by decide)
      "windows" ⟨false, false⟩

/-- C2: for any run in which the launcher was dispatched, a `Crash`
failure whose elapsed wall time since the recorded start exceeds 2
seconds ends the pipeline successfully (the error is swallowed), a
`Crash` at 2 seconds or less rethrows the original crash (FAILED), and a
non-`Crash` failure is always rethrown unchanged regardless of elapsed
time. -/
theorem crash_grace_window (w : World) (msg : String)
    (hlaunch : (doStart w).trace.launcherCalls = 1) :
    (w.launcherResult = some (.crash msg) →
      (2000 < w.crashNow - w.startedAt → (doStart w).result = .ok .done) ∧
      (w.crashNow - w.startedAt ≤ 2000 →
        (doStart w).result = .error (.launchFailed (.crash msg)))) ∧
    (∀ msg2, w.launcherResult = some (.other msg2) →
      (doStart w).result = .error (.launchFailed (.other msg2))) := by
  have hres : (doStart w).result = superviseResult w := by
    by_cases hopen : w.action = "open"
    · simp [doStart, hopen] at hlaunch
    · simp only [doStart, if_neg hopen] at hlaunch ⊢
      rcases launchPhase_cases w (repairPhase w).1 (repairPhase w).2.2 with h0 | h1
      · rw [h0] at hlaunch
        exact absurd hlaunch (by decide)
      · exact h1.2
  refine ⟨fun hcrash => ⟨fun ht => ?_, fun ht => ?_⟩, fun msg2 hoth => ?_⟩
  · rw [hres]
    simp [superviseResult, hcrash, if_pos ht]
  · rw [hres]
    have ht2 : ¬ 2000 < w.crashNow - w.startedAt := by omega
    simp [superviseResult, hcrash, if_neg ht2]
  · rw [hres]
    simp [superviseResult, hoth]

/-- C2 witness: a crash 2.5 seconds after start ends `done`; the same
crash 1.5 seconds after start rethrows the original error. -/
theorem crash_grace_window_witness :
    (doStart crashWorld).result = .ok .done ∧
    (doStart { crashWorld with crashNow := 2500 }).result =
      .error (.launchFailed (.crash "boom")) :=
  ⟨((crash_grace_window crashWorld "boom" (by decide)).1 rfl).1 (by decide),
    ((crash_grace_window { crashWorld with crashNow := 2500 } "boom"
      (by decide)).1 rfl).2 (by decide)⟩

/-- C3: the repair (configure) task runs at most once per launch attempt;
with no initial diagnostic problem it never runs; and when a problem is
found and persists after the single repair, the pipeline fails with the
could-not-launch error carrying the post-repair diagnostic codes, after
exactly one repair invocation. -/
theorem repair_at_most_once (w : World) :
    (doStart w).trace.configureCalls ≤ 1 ∧
    (caveProblem w.cave = none → (doStart w).trace.configureCalls = 0) ∧
    (∀ p2 q2, w.action ≠ "open" → caveProblem w.cave = some p2 →
      caveProblem w.configuredCave = some q2 →
      (doStart w).result = .error (.couldNotLaunch q2) ∧
      (doStart w).trace.configureCalls = 1) := by
  refine ⟨?_, ?_, ?_⟩
  · by_cases hopen : w.action = "open"
    · simp [doStart, hopen]
    · cases hp : caveProblem w.cave with
      | none => simp [doStart, if_neg hopen, repairPhase, hp]
      | some p2 => simp [doStart, if_neg hopen, repairPhase, hp]
  · intro hp
    by_cases hopen : w.action = "open"
    · simp [doStart, hopen]
    · simp [doStart, if_neg hopen, repairPhase, hp]
  · intro p2 q2 hopen hp hq
    have hr : repairPhase w = (w.configuredCave, 1, some q2) := by
      simp [repairPhase, hp, hq]
    constructor
    · simp [doStart, if_neg hopen, hr, launchPhase, baseFlow]
    · simp [doStart, if_neg hopen, hr]

/-- C3 witness: a cave that is broken before and after repair fails with
the diagnostic code after exactly one configure invocation. -/
theorem repair_at_most_once_witness :
    (doStart repairFailWorld).result =
      .error (.couldNotLaunch ["game.install.no_executables_found"]) ∧
    (doStart repairFailWorld).trace.configureCalls = 1 :=
  (repair_at_most_once repairFailWorld).2.2
    ["game.install.no_executables_found"] ["game.install.no_executables_found"]
    (by decide) (by decide) (by decide)

/-- C5: exactly when the resolved manifest action's scope is truthy
(non-empty), the subkey client is invoked (once) and, before the launcher
is dispatched, the environment overlay holds the issued key and expiry
under `ITCHIO_API_KEY` and `ITCHIO_API_KEY_EXPIRES_AT`; for an absent or
empty scope the client is never invoked and neither variable is set,
while the launcher is still dispatched. -/
theorem scope_subkey_env (w : World) (ma0 : ManifestAction) (cc : List ModalRequest)
    (hopen : w.action ≠ "open")
    (hprob : caveProblem w.cave = none)
    (hres : resolveManifestAction w = .selected (some ma0) cc) :
    (∀ s2 : Subkey, strTruthy ma0.scope = true → w.subkeyResult = some s2 →
      (doStart w).trace.subkeyCalls = 1 ∧
      (doStart w).env.ITCHIO_API_KEY = some s2.key ∧
      (doStart w).env.ITCHIO_API_KEY_EXPIRES_AT = some s2.expiresAt ∧
      (doStart w).trace.launcherCalls = 1) ∧
    (strTruthy ma0.scope = false →
      (doStart w).trace.subkeyCalls = 0 ∧
      (doStart w).env = ⟨none, none⟩ ∧
      (doStart w).trace.launcherCalls = 1) := by
  have hr : repairPhase w = (w.cave, 0, none) := by
    simp [repairPhase, hprob]
  constructor
  · intro s2 hscope hsub
    simp [doStart, if_neg hopen, hr, launchPhase, hres, hscope, hsub,
      supervisePhase, baseFlow]
  · intro hscope
    simp [doStart, if_neg hopen, hr, launchPhase, hres, hscope,
      supervisePhase, baseFlow]

/-- C5 witness: the scoped single action of `scopeWorld` puts the issued
key and expiry into the overlay with one subkey call before dispatch. -/
theorem scope_subkey_env_witness :
    (doStart scopeWorld).trace.subkeyCalls = 1 ∧
    (doStart scopeWorld).env.ITCHIO_API_KEY = some "subkey123" ∧
    (doStart scopeWorld).env.ITCHIO_API_KEY_EXPIRES_AT = some "2030-01-01" ∧
    (doStart scopeWorld).trace.launcherCalls = 1 :=
  (scope_subkey_env scopeWorld scopedAction [] (by decide) (by decide)
      (by decide)).1 ⟨"subkey123", "2030-01-01"⟩ (by decide) rfl

/-- C6: with more than one declared action and no explicit action name,
the chooser is invoked exactly once, presented one big button per action
(each carrying its action's name, in order) plus the single trailing
cancel option; a dismissal ends the whole pipeline as an error-free no-op
with no launcher invocation. -/
theorem chooser_once_cancel (w : World) (m : Manifest)
    (hopen : w.action ≠ "open")
    (hprob : caveProblem w.cave = none)
    (hman : w.hasManifest = true)
    (hpar : w.parsedManifest = some m)
    (hval : w.validateOk = true)
    (hlen : 1 < m.actions.length)
    (hname : strTruthy w.manifestActionName = false)
    (hnamed : m.actions.findIdx? (fun a => a.name == "") = none) :
    (doStart w).trace.chooser =
      [{ bigButtons := m.actions.map (fun a => a.name), buttons := ["cancel"] }] ∧
    (w.modalResponse = .cancelled →
      (doStart w).result = .ok .cancelled ∧
      (doStart w).trace.launcherCalls = 0) := by
  have hr : repairPhase w = (w.cave, 0, none) := by
    simp [repairPhase, hprob]
  have hd : (doStart w).trace.chooser = (launchPhase w w.cave none).chooser := by
    simp [doStart, if_neg hopen, hr]
  constructor
  · cases hm : w.modalResponse with
    | response n =>
      have hresp : resolveManifestAction w = .selected (findWhere m.actions n)
          [⟨m.actions.map (fun a => a.name), ["cancel"]⟩] := by
        simp [resolveManifestAction, hman, hpar, hval, hlen, hname, hnamed, hm]
      rw [hd, launchPhase_chooser_eq, hresp]
      rfl
    | cancelled =>
      have hresc : resolveManifestAction w = .cancel
          [⟨m.actions.map (fun a => a.name), ["cancel"]⟩] := by
        simp [resolveManifestAction, hman, hpar, hval, hlen, hname, hnamed, hm]
      rw [hd, launchPhase_chooser_eq, hresc]
      rfl
  · intro hm
    have hresc : resolveManifestAction w = .cancel
        [⟨m.actions.map (fun a => a.name), ["cancel"]⟩] := by
      simp [resolveManifestAction, hman, hpar, hval, hlen, hname, hnamed, hm]
    constructor
    · simp [doStart, if_neg hopen, hr, launchPhase, hresc, baseFlow]
    · simp [doStart, if_neg hopen, hr, launchPhase, hresc, baseFlow]

/-- C6 witness: the two-action world invokes the chooser once with both
action names plus cancel; its dismissal ends the run cancelled with no
launcher call. -/
theorem chooser_once_cancel_witness :
    (doStart chooserWorld).trace.chooser =
      [{ bigButtons := ["play", "editor"], buttons := ["cancel"] }] ∧
    (doStart chooserWorld).result = .ok .cancelled ∧
    (doStart chooserWorld).trace.launcherCalls = 0 := by
  have h := chooser_once_cancel chooserWorld ⟨[playAction, editorAction]⟩
    (by decide) (by decide) rfl rfl rfl (by decide) (by decide) (by decide)
  exact ⟨h.1, h.2 rfl⟩

/-- C9: the UE4-prerequisite step is a no-op unless the platform is
windows, the installed-prerequisite flag is false, and an executable
matching the installer name pattern is found; when it runs, a zero exit
code persists the flag, while a non-zero exit or a spawn failure leaves
the record unchanged; and whatever the spawn oracle answers, the launcher
is still dispatched exactly once with an unchanged outcome — the step
never aborts the primary launch. -/
theorem prereq_best_effort (w : World) (m : CaveRecord) (f : Flow) (s : Option Int) :
    (w.platform ≠ "windows" → runUE4Prereq w m = (m, 0)) ∧
    (m.installedUE4Prereq = true → runUE4Prereq w m = (m, 0)) ∧
    ((m.executables.getD []).find? (fun x => matchesUE4Re x.data) = none →
      runUE4Prereq w m = (m, 0)) ∧
    (∀ ex, w.platform = "windows" → m.installedUE4Prereq = false →
      (m.executables.getD []).find? (fun x => matchesUE4Re x.data) = some ex →
      (w.spawnResult = some 0 →
        runUE4Prereq w m = ({ m with installedUE4Prereq := true }, 1)) ∧
      (∀ c : Int, w.spawnResult = some c → c ≠ 0 → runUE4Prereq w m = (m, 1)) ∧
      (w.spawnResult = none → runUE4Prereq w m = (m, 1))) ∧
    ((supervisePhase w f).launcherCalls = 1 ∧
      (supervisePhase { w with spawnResult := s } f).result =
        (supervisePhase w f).result) := by
  refine ⟨?_, ?_, ?_, ?_, ?_, ?_⟩
  · intro h
    simp [runUE4Prereq, h]
  · intro h
    by_cases hp : w.platform = "windows"
    · simp [runUE4Prereq, hp, h]
    · simp [runUE4Prereq, hp]
  · intro hfind
    by_cases hp : w.platform = "windows"
    · by_cases hflag : m.installedUE4Prereq
      · simp [runUE4Prereq, hp, hflag]
      · simp [runUE4Prereq, hp, hflag, hfind]
    · simp [runUE4Prereq, hp]
  · intro ex hp hflag hfind
    refine ⟨?_, ?_, ?_⟩
    · intro hs
      simp [runUE4Prereq, hp, hflag, hfind, hs]
    · intro c hs hc
      simp [runUE4Prereq, hp, hflag, hfind, hs, hc]
    · intro hs
      simp [runUE4Prereq, hp, hflag, hfind, hs]
  · simp [supervisePhase]
  · simp [supervisePhase, superviseResult]

/-- C9 witness: on windows with the flag unset and a matching installer,
a zero exit persists the installed-prerequisite flag with one spawn. -/
theorem prereq_best_effort_witness :
    runUE4Prereq prereqWorld prereqCave =
      ({ prereqCave with installedUE4Prereq := true }, 1) :=
  ((prereq_best_effort prereqWorld prereqCave (baseFlow baseCave .native)
      none).2.2.2.1 "UE4PrereqSetup.exe" rfl rfl (by decide)).1 rfl

/-- C1 (code defect, failing input): with two declared actions and the
explicit name `nope` matching neither, the source's mismatch branch tests
`action` — the earlier `actionForGame` result, the truthy `launch` here —
rather than the just-resolved `manifestAction`, so the pipeline does not
stop: no action is selected, the launcher is dispatched once by
heuristics, and the run ends `done`, not in the claimed launch-free
cancelled fallback. -/
theorem explicit_mismatch_launches_anyway :
    (doStart mismatchWorld).result = .ok .done ∧
    (doStart mismatchWorld).trace.launcherCalls = 1 ∧
    (doStart mismatchWorld).manifestAction = none ∧
    (doStart mismatchWorld).result ≠ .ok .cancelled := by
  decide

end Itch
